import Mathlib

/-!
Shallow embedding of the RepairAll repository (saviour2/RepairAll).

Source files embedded:
  * src/services/geminiService.ts : the Guide Orchestrator, `generateRepairGuide`.
  * src/App.tsx : the Presentation Shell handlers `handleFileChange`,
    `handleGenerateGuide`, `handleReset`, and the conditional-rendering logic.

Modelling decisions, all driven by the source:
  * The TypeScript code calls `JSON.parse` on the reasoning-service response and
    casts the result to `GeminiJsonPlan` WITHOUT any shape validation, so the
    parsed payload is modelled as a dynamic JavaScript value (`JsValue`), with
    property access and iteration following JavaScript semantics (reading a
    property of `null`/`undefined` throws a TypeError, a missing property of an
    object yields `undefined`, calling `.entries()` on a non-array throws).
  * The two remote services are oracles supplied in a `GenEnv`: the planning
    call yields either a rejection, a response whose text is not valid JSON, or
    a parsed `JsValue`; each image-generation call yields a rejection or an
    `ImagesResponse`.  File reading (`fileToBase64`) is modelled as total.
  * Externally observable actions (progress-callback invocations and network
    calls) are recorded in order in an event trace, so that claims about "zero
    image calls" or "message emitted before the call" are statable.
  * Thrown `Error`s are modelled by `OrchError`, one constructor per distinct
    throw site (plus TypeErrors from dynamic accesses and rejected promises);
    engine-generated TypeError messages are abridged.
-/

/-- A JavaScript value as produced by `JSON.parse` plus `undefined`,
which property access on an object can produce. -/
inductive JsValue where
  | null : JsValue
  | undefined : JsValue
  | bool : Bool → JsValue
  | num : Int → JsValue
  | str : String → JsValue
  | arr : List JsValue → JsValue
  | obj : List (String × JsValue) → JsValue
deriving Repr

/-- Errors thrown by the orchestrator, one constructor per throw site in
src/services/geminiService.ts, plus TypeErrors raised by the JavaScript
runtime on bad property accesses and Errors from rejected service promises. -/
inductive OrchError where
  | configError (message : String) : OrchError
  | transportError (message : String) : OrchError
  | malformedPlanError (message : String) : OrchError
  | typeError (message : String) : OrchError
  | imageGenerationError (message : String) : OrchError
deriving Repr, DecidableEq

/-- JavaScript property access `v.key`: throws a TypeError on `null` and
`undefined`, yields the field or `undefined` on an object, and `undefined`
on other primitives (none of the accessed keys is a built-in property). -/
def jsGet : JsValue → String → Except OrchError JsValue
  | .null, key => .error (.typeError ("Cannot read properties of null (reading " ++ key ++ ")"))
  | .undefined, key => .error (.typeError ("Cannot read properties of undefined (reading " ++ key ++ ")"))
  | .obj fields, key =>
    .ok (match fields.lookup key with
         | some v => v
         | none => .undefined)
  | _, _ => .ok .undefined

/-- JavaScript `v.entries()` as used in `for (const [index, step] of
plan.steps.entries())`: succeeds exactly when `v` is an array. -/
def jsEntries : JsValue → Except OrchError (List JsValue)
  | .arr xs => .ok xs
  | .null => .error (.typeError "Cannot read properties of null (reading entries)")
  | .undefined => .error (.typeError "Cannot read properties of undefined (reading entries)")
  | _ => .error (.typeError "entries is not a function")

mutual

/-- JavaScript string coercion as performed by a template literal, used by the
source in the message `Failed to generate an image for step ${step.stepNumber}.`
(an array renders as its comma-joined elements, with `null` and `undefined`
elements rendering as the empty string). -/
def jsToString : JsValue → String
  | .null => "null"
  | .undefined => "undefined"
  | .bool b => if b then "true" else "false"
  | .num n => toString n
  | .str s => s
  | .arr xs => jsArrJoin xs
  | .obj _ => "[object Object]"

/-- Comma join of array elements, as JavaScript `Array.prototype.toString`. -/
def jsArrJoin : List JsValue → String
  | [] => ""
  | [v] => jsElem v
  | v :: rest => jsElem v ++ "," ++ jsArrJoin rest

/-- One array element under JavaScript `join`: `null` and `undefined` render
as the empty string, anything else by ordinary string coercion. -/
def jsElem : JsValue → String
  | .null => ""
  | .undefined => ""
  | .bool b => if b then "true" else "false"
  | .num n => toString n
  | .str s => s
  | .arr xs => jsArrJoin xs
  | .obj _ => "[object Object]"

end

/-- The uploaded file, as the orchestrator and the Shell see it: a name, a
declared MIME `type`, a `size` in bytes and its (abstract) binary content. -/
structure JsFile where
  name : String
  type : String
  size : Nat
  content : String
deriving Repr, DecidableEq

/-- The nested `image` object of a generated image in the SDK response. -/
structure ApiImage where
  imageBytes : String
deriving Repr, DecidableEq

/-- One entry of `imageGenerationResponse.generatedImages`. -/
structure GeneratedImage where
  image : ApiImage
deriving Repr, DecidableEq

/-- An image-generation response; `generatedImages` may be absent (`none`),
matching the source check `!imageGenerationResponse.generatedImages`. -/
structure ImagesResponse where
  generatedImages : Option (List GeneratedImage)
deriving Repr, DecidableEq

/-- A step of the final guide as assembled by the source: `stepNumber` and
`description` are copied verbatim from the dynamically-typed plan step, and
`imageUrl` is the data URL built around the returned image bytes. -/
structure TutorialStep where
  stepNumber : JsValue
  description : JsValue
  imageUrl : String
deriving Repr

/-- The final artifact returned by the orchestrator. -/
structure RepairGuide where
  safetyWarning : JsValue
  steps : List TutorialStep
deriving Repr

/-- The environment of one orchestrator run: the configuration and the
behaviour of the two remote services.
  * `apiKey`: `process.env.API_KEY` (`none` when unset).
  * `planningResult`: outcome of the planning call followed by `JSON.parse`
    of its trimmed text — `.error m` models a rejected promise carrying an
    `Error` with message `m`, `.ok none` a response whose text `JSON.parse`
    cannot parse, `.ok (some v)` a response parsing to the value `v`.
  * `imageResults k`: outcome of the `k`-th (0-based) `generateImages` call. -/
structure GenEnv where
  apiKey : Option String
  planningResult : Except String (Option JsValue)
  imageResults : Nat → Except String ImagesResponse

/-- Externally observable actions of a run, in order: progress-callback
invocations, the planning network call (carrying the user description and the
file MIME type; remaining payload details are abstracted), and each
image-generation network call (carrying the prompt value passed to it). -/
inductive Event where
  | progress (message : String) : Event
  | planningCall (description : String) (mimeType : String) : Event
  | imageCall (prompt : JsValue) : Event
deriving Repr

/-- The result of one orchestrator run: its event trace and its outcome. -/
structure RunResult where
  trace : List Event
  outcome : Except OrchError RepairGuide
deriving Repr

/-- Truth of `!process.env.API_KEY`: the key is missing or the empty string
(the empty string is falsy in JavaScript). -/
def envKeyMissing : Option String → Bool
  | none => true
  | some s => s.isEmpty

/-- The per-step loop of `generateRepairGuide` (source lines 144-185): for each
plan step, in order, emit the progress message, read `step.imagePrompt`, call
the image service, fail if it yields no image (the failure message reads
`step.stepNumber`), otherwise build the data URL and append a `TutorialStep`
copying `stepNumber` and `description` from the plan step.  Returns the events
of the loop and either the accumulated steps or the first error. -/
def stepLoop (env : GenEnv) (total : Nat) :
    List JsValue → Nat → List Event × Except OrchError (List TutorialStep)
  | [], _ => ([], .ok [])
  | step :: rest, index =>
    let progressEv := Event.progress s!"Generating image for step {index + 1} of {total}..."
    match jsGet step "imagePrompt" with
    | .error e => ([progressEv], .error e)
    | .ok prompt =>
      match env.imageResults index with
      | .error m => ([progressEv, .imageCall prompt], .error (.transportError m))
      | .ok resp =>
        match resp.generatedImages with
        | some (g :: _) =>
          let imageUrl := "data:image/jpeg;base64," ++ g.image.imageBytes
          match jsGet step "stepNumber" with
          | .error e => ([progressEv, .imageCall prompt], .error e)
          | .ok sn =>
            match jsGet step "description" with
            | .error e => ([progressEv, .imageCall prompt], .error e)
            | .ok desc =>
              let next := stepLoop env total rest (index + 1)
              (progressEv :: .imageCall prompt :: next.1,
               match next.2 with
               | .error e => .error e
               | .ok ts => .ok (⟨sn, desc, imageUrl⟩ :: ts))
        | _ =>
          match jsGet step "stepNumber" with
          | .error e => ([progressEv, .imageCall prompt], .error e)
          | .ok sn =>
            ([progressEv, .imageCall prompt],
             .error (.imageGenerationError
               s!"Failed to generate an image for step {jsToString sn}."))

/-- The Guide Orchestrator, `generateRepairGuide` of
src/services/geminiService.ts: check the API key, emit the analysis progress
message, perform the planning call, `JSON.parse` its text (a parse failure is
the malformed-plan throw site), read `plan.steps` and iterate it, then
assemble `RepairGuide{safetyWarning: plan.safetyWarning, steps}`. -/
def generateRepairGuide (env : GenEnv) (problemDescription : String)
    (imageFile : JsFile) : RunResult :=
  if envKeyMissing env.apiKey then
    ⟨[], .error (.configError "API_KEY environment variable is not set.")⟩
  else
    let analyzeEv := Event.progress "Analyzing item and planning repair..."
    let callEv := Event.planningCall problemDescription imageFile.type
    match env.planningResult with
    | .error m => ⟨[analyzeEv, callEv], .error (.transportError m)⟩
    | .ok none =>
      ⟨[analyzeEv, callEv],
       .error (.malformedPlanError "The AI returned an unexpected format. Please try again.")⟩
    | .ok (some plan) =>
      match jsGet plan "steps" with
      | .error e => ⟨[analyzeEv, callEv], .error e⟩
      | .ok stepsVal =>
        match jsEntries stepsVal with
        | .error e => ⟨[analyzeEv, callEv], .error e⟩
        | .ok steps =>
          let looped := stepLoop env steps.length steps 0
          ⟨analyzeEv :: callEv :: looped.1,
           match looped.2 with
           | .error e => .error e
           | .ok ts =>
             match jsGet plan "safetyWarning" with
             | .error e => .error e
             | .ok sw => .ok ⟨sw, ts⟩⟩

/-- Number of image-generation calls recorded in a trace. -/
def countImageCalls : List Event → Nat
  | [] => 0
  | .imageCall _ :: rest => countImageCalls rest + 1
  | _ :: rest => countImageCalls rest

/-- A plan step as the expected response shape declares it (the
`responseSchema` of the planning call: stepNumber, description, imagePrompt,
all required). -/
structure PlanStep where
  stepNumber : Int
  description : String
  imagePrompt : String
deriving Repr, DecidableEq

/-- The expected response shape of the planning call (`GeminiJsonPlan` of
src/types.ts as constrained by the declared `responseSchema`): an optional
safety warning (`null` when absent) and the list of steps. -/
structure GeminiJsonPlan where
  safetyWarning : Option String
  steps : List PlanStep
deriving Repr, DecidableEq

/-- The JSON value a shape-conforming plan step parses to. -/
def encodeStep (s : PlanStep) : JsValue :=
  .obj [("stepNumber", .num s.stepNumber),
        ("description", .str s.description),
        ("imagePrompt", .str s.imagePrompt)]

/-- The JSON value a shape-conforming plan parses to. -/
def encodePlan (p : GeminiJsonPlan) : JsValue :=
  .obj [("safetyWarning", match p.safetyWarning with
                          | none => .null
                          | some s => .str s),
        ("steps", .arr (p.steps.map encodeStep))]

/-!
Presentation Shell (src/App.tsx): the React state of `App` and the three event
handlers, modelled as pure transitions on the state record.  `useRef`-held DOM
state (the file input element) is not part of the model; interim
`setLoadingMessage` calls made through the progress callback during a run are
superseded by the `finally` block before the handler completes, so only the
final state is modelled.  `URL.createObjectURL` is an abstract injection from
files to preview URLs, passed as a parameter.
-/

/-- The Shell state: the seven `useState` slots of `App`. -/
structure AppState where
  problemDescription : String
  imageFile : Option JsFile
  previewUrl : Option String
  guide : Option RepairGuide
  isLoading : Bool
  loadingMessage : String
  error : Option String

/-- The initial Shell state (the `useState` initial values). -/
def initialAppState : AppState :=
  ⟨"", none, none, none, false, "", none⟩

/-- The Form view is rendered exactly when no guide is stored and no request
is in flight (`!guide && !isLoading` in the authenticated render). -/
def showsForm (s : AppState) : Bool :=
  s.guide.isNone && !s.isLoading

/-- The Loading view is rendered exactly when `isLoading` holds. -/
def showsLoading (s : AppState) : Bool :=
  s.isLoading

/-- The Result view is rendered exactly when a guide is stored. -/
def showsResult (s : AppState) : Bool :=
  s.guide.isSome

/-- `handleFileChange`: with no file selected nothing happens; a file larger
than 4 * 1024 * 1024 bytes only sets the error message; otherwise the file is
stored, a fresh preview URL replaces the old one, and the error is cleared. -/
def handleFileChange (createObjectURL : JsFile → String) (s : AppState)
    (selected : Option JsFile) : AppState :=
  match selected with
  | none => s
  | some f =>
    if f.size > 4 * 1024 * 1024 then
      { s with error := some "Image file is too large. Please select a file under 4MB." }
    else
      { s with imageFile := some f,
               previewUrl := some (createObjectURL f),
               error := none }

/-- The state set up by `handleGenerateGuide` before the orchestrator call:
clear the error, raise the loading flag, clear any previous guide, and set the
starting loading message. -/
def generatePrep (s : AppState) : AppState :=
  { s with error := none,
           isLoading := true,
           guide := none,
           loadingMessage := "Starting the repair guide generation..." }

/-- Message shown by the Shell for a failure: the thrown values are all
`Error` instances, so `error instanceof Error ? error.message : ...` selects
the message carried by the error. -/
def errorMessage : OrchError → String
  | .configError m => m
  | .transportError m => m
  | .malformedPlanError m => m
  | .typeError m => m
  | .imageGenerationError m => m

/-- `handleGenerateGuide`: validate the form (`!problemDescription ||
!imageFile` only sets a validation error), otherwise prepare the state, run
the orchestrator, store the guide on success or the display string on failure,
and in all cases clear the loading flag and the loading message. -/
def handleGenerateGuide (env : GenEnv) (s : AppState) : AppState :=
  match s.imageFile with
  | none => { s with error := some "Please provide a description and an image." }
  | some f =>
    if s.problemDescription = "" then
      { s with error := some "Please provide a description and an image." }
    else
      let s1 := generatePrep s
      let s2 :=
        match (generateRepairGuide env s.problemDescription f).outcome with
        | .ok g => { s1 with guide := some g }
        | .error e => { s1 with error := some (errorMessage e) }
      { s2 with isLoading := false, loadingMessage := "" }

/-- `handleReset`: clear the description, the image, the preview, the guide
and the error, returning the UI to the initial form. -/
def handleReset (s : AppState) : AppState :=
  { s with problemDescription := "",
           imageFile := none,
           previewUrl := none,
           guide := none,
           error := none }

/-!
Helper predicates and expected-value functions used to state properties of the
orchestrator, plus the lemmas about `stepLoop` the claim theorems rest on.
-/

/-- The image service answered the call with at least one image. -/
def imageCallOk : Except String ImagesResponse → Bool
  | .ok ⟨some (_ :: _)⟩ => true
  | _ => false

/-- The image service answered the call with zero images (an absent or empty
`generatedImages`), the condition of the abort check in the source. -/
def imageCallEmpty : Except String ImagesResponse → Bool
  | .ok ⟨none⟩ => true
  | .ok ⟨some []⟩ => true
  | _ => false

/-- The data URL built from the first image of the `k`-th call (defined only
up to the default when that call did not yield an image). -/
def urlOfCall (env : GenEnv) (k : Nat) : String :=
  match env.imageResults k with
  | .ok ⟨some (g :: _)⟩ => "data:image/jpeg;base64," ++ g.image.imageBytes
  | _ => ""

/-- The tutorial steps a fully successful loop assembles from a
shape-conforming plan suffix starting at call index `idx`. -/
def okSteps (env : GenEnv) : List PlanStep → Nat → List TutorialStep
  | [], _ => []
  | q :: rest, idx =>
    ⟨.num q.stepNumber, .str q.description, urlOfCall env idx⟩ :: okSteps env rest (idx + 1)

/-- The events of the image-generation phase over a plan suffix starting at
loop index `idx`: for each step, its progress message then its service call. -/
def imagePhaseTrace (total : Nat) : List PlanStep → Nat → List Event
  | [], _ => []
  | q :: rest, idx =>
    .progress s!"Generating image for step {idx + 1} of {total}..." ::
    .imageCall (.str q.imagePrompt) ::
    imagePhaseTrace total rest (idx + 1)

theorem jsGet_encodeStep_imagePrompt (q : PlanStep) :
    jsGet (encodeStep q) "imagePrompt" = .ok (.str q.imagePrompt) := rfl

theorem jsGet_encodeStep_stepNumber (q : PlanStep) :
    jsGet (encodeStep q) "stepNumber" = .ok (.num q.stepNumber) := rfl

theorem jsGet_encodeStep_description (q : PlanStep) :
    jsGet (encodeStep q) "description" = .ok (.str q.description) := rfl

theorem jsGet_encodePlan_steps (p : GeminiJsonPlan) :
    jsGet (encodePlan p) "steps" = .ok (.arr (p.steps.map encodeStep)) := rfl

/-- On a shape-conforming plan whose image calls all yield an image, the loop
produces exactly the expected trace and the expected tutorial steps. -/
theorem stepLoop_ok_spec (env : GenEnv) (total : Nat) :
    ∀ (ps : List PlanStep) (idx : Nat),
      (∀ j, j < ps.length → imageCallOk (env.imageResults (idx + j)) = true) →
      stepLoop env total (ps.map encodeStep) idx =
        (imagePhaseTrace total ps idx, .ok (okSteps env ps idx)) := by
  intro ps
  induction ps with
  | nil => intro idx _; simp [stepLoop, imagePhaseTrace, okSteps]
  | cons q rest ih =>
    intro idx h
    have h0 : imageCallOk (env.imageResults idx) = true := by
      have := h 0 (by simp)
      simpa using this
    cases hr : env.imageResults idx with
    | error m => rw [hr] at h0; simp [imageCallOk] at h0
    | ok resp =>
      obtain ⟨gi⟩ := resp
      cases gi with
      | none => rw [hr] at h0; simp [imageCallOk] at h0
      | some gs =>
        cases gs with
        | nil => rw [hr] at h0; simp [imageCallOk] at h0
        | cons g gs2 =>
          have hrec := ih (idx + 1) (by
            intro j hj
            have := h (j + 1) (by simpa using Nat.succ_lt_succ hj)
            have harith : idx + (j + 1) = idx + 1 + j := by omega
            rwa [harith] at this)
          simp only [List.map, stepLoop, jsGet_encodeStep_imagePrompt,
            jsGet_encodeStep_stepNumber, jsGet_encodeStep_description, hr, hrec,
            imagePhaseTrace, okSteps, urlOfCall]

/-- Whenever the loop succeeds — over an arbitrary dynamic steps value — it
returns exactly one tutorial step per plan step. -/
theorem stepLoop_ok_length (env : GenEnv) (total : Nat) :
    ∀ (steps : List JsValue) (idx : Nat) (ts : List TutorialStep),
      (stepLoop env total steps idx).2 = .ok ts → ts.length = steps.length := by
  intro steps
  induction steps with
  | nil =>
    intro idx ts h
    simp only [stepLoop] at h
    cases h
    rfl
  | cons step rest ih =>
    intro idx ts h
    simp only [stepLoop] at h
    repeat' split at h
    all_goals try cases h
    all_goals simp_all
    all_goals exact ih (idx + 1) _ (by assumption)

/-- Whenever the loop succeeds on a shape-conforming plan, the `i`-th tutorial
step copies `stepNumber` and `description` verbatim from the `i`-th plan step. -/
theorem stepLoop_ok_encoded (env : GenEnv) (total : Nat) :
    ∀ (ps : List PlanStep) (idx : Nat) (ts : List TutorialStep),
      (stepLoop env total (ps.map encodeStep) idx).2 = .ok ts →
      ∀ (i : Nat) (q : PlanStep), ps[i]? = some q →
        ∃ url, ts[i]? = some ⟨.num q.stepNumber, .str q.description, url⟩ := by
  intro ps
  induction ps with
  | nil => intro idx ts h i q hq; simp at hq
  | cons q0 rest ih =>
    intro idx ts h i q hq
    simp only [List.map, stepLoop, jsGet_encodeStep_imagePrompt,
      jsGet_encodeStep_stepNumber, jsGet_encodeStep_description] at h
    cases hr : env.imageResults idx with
    | error m => rw [hr] at h; simp at h
    | ok resp =>
      rw [hr] at h
      obtain ⟨gi⟩ := resp
      match gi with
      | none => simp at h
      | some [] => simp at h
      | some (g :: gs) =>
        simp only at h
        cases hnext : (stepLoop env total (rest.map encodeStep) (idx + 1)).2 with
        | error e => rw [hnext] at h; simp at h
        | ok ts2 =>
          rw [hnext] at h
          simp only at h
          cases h
          cases i with
          | zero =>
            simp only [List.getElem?_cons_zero, Option.some.injEq] at hq
            subst hq
            exact ⟨"data:image/jpeg;base64," ++ g.image.imageBytes, by simp⟩
          | succ i =>
            simp only [List.getElem?_cons_succ] at hq
            obtain ⟨url, hurl⟩ := ih (idx + 1) ts2 hnext i q hq
            exact ⟨url, by simpa using hurl⟩

/-- If the `k`-th image call is the first to yield zero images, the loop over
a shape-conforming plan aborts there: it fails with the image-generation
error naming the `k`-th plan step's `stepNumber`, after exactly `k + 1`
image calls. -/
theorem stepLoop_fail (env : GenEnv) (total : Nat) :
    ∀ (ps : List PlanStep) (k : Nat) (idx : Nat) (q : PlanStep),
      ps[k]? = some q →
      imageCallEmpty (env.imageResults (idx + k)) = true →
      (∀ j, j < k → imageCallOk (env.imageResults (idx + j)) = true) →
      (stepLoop env total (ps.map encodeStep) idx).2 =
        .error (.imageGenerationError
          s!"Failed to generate an image for step {jsToString (JsValue.num q.stepNumber)}.") ∧
      countImageCalls (stepLoop env total (ps.map encodeStep) idx).1 = k + 1 := by
  intro ps
  induction ps with
  | nil => intro k idx q hq _ _; simp at hq
  | cons q0 rest ih =>
    intro k idx q hq hempty hok
    cases k with
    | zero =>
      simp only [List.getElem?_cons_zero, Option.some.injEq] at hq
      subst hq
      rw [Nat.add_zero] at hempty
      cases hr : env.imageResults idx with
      | error m => rw [hr] at hempty; simp [imageCallEmpty] at hempty
      | ok resp =>
        obtain ⟨gi⟩ := resp
        match gi with
        | none =>
          constructor <;>
            simp [List.map, stepLoop, jsGet_encodeStep_imagePrompt,
              jsGet_encodeStep_stepNumber, hr, countImageCalls]
        | some [] =>
          constructor <;>
            simp [List.map, stepLoop, jsGet_encodeStep_imagePrompt,
              jsGet_encodeStep_stepNumber, hr, countImageCalls]
        | some (g :: gs) =>
          rw [hr] at hempty; simp [imageCallEmpty] at hempty
    | succ k =>
      simp only [List.getElem?_cons_succ] at hq
      have h0 : imageCallOk (env.imageResults idx) = true := by
        have := hok 0 (Nat.succ_pos k)
        simpa using this
      cases hr : env.imageResults idx with
      | error m => rw [hr] at h0; simp [imageCallOk] at h0
      | ok resp =>
        obtain ⟨gi⟩ := resp
        match gi with
        | none => rw [hr] at h0; simp [imageCallOk] at h0
        | some [] => rw [hr] at h0; simp [imageCallOk] at h0
        | some (g :: gs) =>
          have hempty2 : imageCallEmpty (env.imageResults (idx + 1 + k)) = true := by
            have harith : idx + 1 + k = idx + (k + 1) := by omega
            rwa [harith]
          have hok2 : ∀ j, j < k → imageCallOk (env.imageResults (idx + 1 + j)) = true := by
            intro j hj
            have := hok (j + 1) (by omega)
            have harith : idx + 1 + j = idx + (j + 1) := by omega
            rwa [harith]
          obtain ⟨ihe, ihc⟩ := ih k (idx + 1) q hq hempty2 hok2
          constructor
          · simp only [List.map, stepLoop, jsGet_encodeStep_imagePrompt,
              jsGet_encodeStep_stepNumber, jsGet_encodeStep_description, hr]
            simp [ihe]
          · simp only [List.map, stepLoop, jsGet_encodeStep_imagePrompt,
              jsGet_encodeStep_stepNumber, jsGet_encodeStep_description, hr]
            simp [countImageCalls, ihc]

theorem jsToString_num (n : Int) : jsToString (.num n) = toString n := by
  simp [jsToString]

/-- Reduction of a run once the key is present and the planning payload has
a `steps` array: the trace is the two fixed head events followed by the loop
events, and the outcome is the loop outcome finished by the `safetyWarning`
read. -/
theorem generateRepairGuide_planned (env : GenEnv) (d : String) (f : JsFile)
    (plan : JsValue) (stepVals : List JsValue)
    (hkey : envKeyMissing env.apiKey = false)
    (hplan : env.planningResult = .ok (some plan))
    (hsteps : jsGet plan "steps" = .ok (.arr stepVals)) :
    generateRepairGuide env d f =
      ⟨Event.progress "Analyzing item and planning repair..." ::
       Event.planningCall d f.type ::
       (stepLoop env stepVals.length stepVals 0).1,
       match (stepLoop env stepVals.length stepVals 0).2 with
       | .error e => .error e
       | .ok ts =>
         match jsGet plan "safetyWarning" with
         | .error e => .error e
         | .ok sw => .ok ⟨sw, ts⟩⟩ := by
  simp [generateRepairGuide, hkey, hplan, hsteps, jsEntries]

/-- Index characterization of the image-phase trace: the `i`-th step
contributes its progress message at position `2 i` immediately followed by
its image call at position `2 i + 1`. -/
theorem imagePhaseTrace_getElem (total : Nat) :
    ∀ (ps : List PlanStep) (idx i : Nat) (q : PlanStep), ps[i]? = some q →
      (imagePhaseTrace total ps idx)[2 * i]? =
        some (.progress s!"Generating image for step {idx + i + 1} of {total}...") ∧
      (imagePhaseTrace total ps idx)[2 * i + 1]? =
        some (.imageCall (.str q.imagePrompt)) := by
  intro ps
  induction ps with
  | nil => intro idx i q hq; simp at hq
  | cons q0 rest ih =>
    intro idx i q hq
    cases i with
    | zero =>
      simp only [List.getElem?_cons_zero, Option.some.injEq] at hq
      subst hq
      constructor <;> simp [imagePhaseTrace]
    | succ i =>
      simp only [List.getElem?_cons_succ] at hq
      obtain ⟨ih1, ih2⟩ := ih (idx + 1) i q hq
      have hmsg : idx + 1 + i + 1 = idx + (i + 1) + 1 := by omega
      rw [hmsg] at ih1
      constructor
      · have harith : 2 * (i + 1) = 2 * i + 1 + 1 := by omega
        rw [harith]
        simpa [imagePhaseTrace, List.getElem?_cons_succ] using ih1
      · have harith : 2 * (i + 1) + 1 = 2 * i + 1 + 1 + 1 := by omega
        rw [harith]
        simpa [imagePhaseTrace, List.getElem?_cons_succ] using ih2

/-!
Concrete fixtures for witnesses and counterexamples.
-/

/-- A sample uploaded file. -/
def fileA : JsFile := ⟨"chair.jpg", "image/jpeg", 2048, "QkFTRTY0"⟩

/-- An image-service response carrying exactly one image. -/
def okImages : Except String ImagesResponse := .ok ⟨some [⟨⟨"IMG"⟩⟩]⟩

/-- A conforming three-step plan. -/
def planA : GeminiJsonPlan :=
  ⟨some "Unplug the device before starting.",
   [⟨1, "Gather a screwdriver and wood glue.", "photo of repair tools"⟩,
    ⟨2, "Apply glue to the crack.", "photo of glue applied"⟩,
    ⟨3, "Clamp the leg and let it dry.", "photo of clamped leg"⟩]⟩

/-- An environment where both services behave: the response parses to `planA`
and every image call yields one image. -/
def envA : GenEnv := ⟨some "key", .ok (some (encodePlan planA)), fun _ => okImages⟩

/-- A conforming plan with only two steps (the model ignored the 3-5 request). -/
def planTwo : GeminiJsonPlan :=
  ⟨none,
   [⟨1, "Gather tools.", "photo of tools"⟩,
    ⟨2, "Fix it.", "photo of the fix"⟩]⟩

/-- An environment whose planning response parses to the two-step `planTwo`. -/
def envTwo : GenEnv := ⟨some "key", .ok (some (encodePlan planTwo)), fun _ => okImages⟩

/-- An environment whose planning response text is not valid JSON. -/
def envBadJson : GenEnv := ⟨some "key", .ok none, fun _ => okImages⟩

/-- An environment whose planning response parses to an object that violates
the RepairPlan shape: it has no `steps` field at all. -/
def envShapeBad : GenEnv :=
  ⟨some "key", .ok (some (.obj [("safetyWarning", .null)])), fun _ => okImages⟩

/-- An environment where the second image call returns an empty image list. -/
def envEmptyAt1 : GenEnv :=
  ⟨some "key", .ok (some (encodePlan planA)),
   fun k => if k = 1 then .ok ⟨some []⟩ else okImages⟩

/-- A conforming plan whose single step is numbered 7 rather than 1. -/
def planSeven : GeminiJsonPlan := ⟨none, [⟨7, "Do the repair.", "photo"⟩]⟩

/-- An environment whose planning response parses to `planSeven`. -/
def envSeven : GenEnv := ⟨some "key", .ok (some (encodePlan planSeven)), fun _ => okImages⟩

/-- An environment with no API key configured. -/
def envNoKey : GenEnv := ⟨none, .ok none, fun _ => okImages⟩

/-- The number of steps of a successful outcome. -/
def outcomeStepCount (r : RunResult) : Option Nat :=
  match r.outcome with
  | .ok g => some g.steps.length
  | .error _ => none

/-!
Claim theorems.
-/

/-- C1 (amended): a successful `generateRepairGuide` run returns a guide with
exactly one `TutorialStep` per element of the parsed plan's `steps` array
(equal lengths), and that length lies between 3 and 5 whenever the parsed
plan's step count does.  Amendment forced by the counterexample: the code
requests 3-5 steps in its prompt but never enforces the bound, so a successful
run over a plan outside that range succeeds with the plan's own length. -/
theorem generateRepairGuide_steps_length (env : GenEnv) (d : String) (f : JsFile)
    (plan : JsValue) (stepVals : List JsValue) (g : RepairGuide)
    (hplan : env.planningResult = .ok (some plan))
    (hsteps : jsGet plan "steps" = .ok (.arr stepVals))
    (hok : (generateRepairGuide env d f).outcome = .ok g) :
    g.steps.length = stepVals.length ∧
    (3 ≤ stepVals.length ∧ stepVals.length ≤ 5 →
      3 ≤ g.steps.length ∧ g.steps.length ≤ 5) := by
  cases hkey : envKeyMissing env.apiKey with
  | true => simp [generateRepairGuide, hkey] at hok
  | false =>
    rw [generateRepairGuide_planned env d f plan stepVals hkey hplan hsteps] at hok
    simp only at hok
    cases hloop : (stepLoop env stepVals.length stepVals 0).2 with
    | error e => rw [hloop] at hok; simp at hok
    | ok ts =>
      rw [hloop] at hok
      cases hsw : jsGet plan "safetyWarning" with
      | error e => rw [hsw] at hok; simp at hok
      | ok sw =>
        rw [hsw] at hok
        simp only [Except.ok.injEq] at hok
        subst hok
        have hlen : ({ safetyWarning := sw, steps := ts } : RepairGuide).steps.length
            = stepVals.length :=
          stepLoop_ok_length env stepVals.length stepVals 0 ts hloop
        exact ⟨hlen, fun hb => by rw [hlen]; omega⟩

/-- C1 witness: in `envA` the run succeeds and the conclusion holds at the
three-step plan. -/
theorem generateRepairGuide_steps_length_witness :
    (RepairGuide.mk (.str "Unplug the device before starting.")
      [⟨.num 1, .str "Gather a screwdriver and wood glue.", "data:image/jpeg;base64,IMG"⟩,
       ⟨.num 2, .str "Apply glue to the crack.", "data:image/jpeg;base64,IMG"⟩,
       ⟨.num 3, .str "Clamp the leg and let it dry.", "data:image/jpeg;base64,IMG"⟩]).steps.length
        = (planA.steps.map encodeStep).length ∧
    (3 ≤ (planA.steps.map encodeStep).length ∧ (planA.steps.map encodeStep).length ≤ 5 →
      3 ≤ (RepairGuide.mk (.str "Unplug the device before starting.")
        [⟨.num 1, .str "Gather a screwdriver and wood glue.", "data:image/jpeg;base64,IMG"⟩,
         ⟨.num 2, .str "Apply glue to the crack.", "data:image/jpeg;base64,IMG"⟩,
         ⟨.num 3, .str "Clamp the leg and let it dry.", "data:image/jpeg;base64,IMG"⟩]).steps.length ∧
      (RepairGuide.mk (.str "Unplug the device before starting.")
        [⟨.num 1, .str "Gather a screwdriver and wood glue.", "data:image/jpeg;base64,IMG"⟩,
         ⟨.num 2, .str "Apply glue to the crack.", "data:image/jpeg;base64,IMG"⟩,
         ⟨.num 3, .str "Clamp the leg and let it dry.", "data:image/jpeg;base64,IMG"⟩]).steps.length ≤ 5) :=
  generateRepairGuide_steps_length envA "The chair leg is cracked." fileA
    (encodePlan planA) (planA.steps.map encodeStep) _ rfl rfl rfl

/-- C1 counterexample: in `envTwo` the model returned a two-step plan; the run
succeeds and the returned guide has 2 steps, outside the claimed 3-5 range. -/
theorem generateRepairGuide_steps_length_cex :
    outcomeStepCount (generateRepairGuide envTwo "The chair leg is cracked." fileA) = some 2 := rfl

/-- C2 (amended): when the reasoning-service response text cannot be parsed as
JSON, `generateRepairGuide` fails with the malformed-plan error, immediately
(one planning call, no retry) and with zero image-generation calls.
Amendment forced by the counterexample: a payload that parses but does not
satisfy the RepairPlan shape is not converted to the malformed-plan error (the
source only guards `JSON.parse`); such a payload fails later with a plain
runtime error. -/
theorem generateRepairGuide_malformed_plan (env : GenEnv) (d : String) (f : JsFile)
    (hkey : envKeyMissing env.apiKey = false)
    (hparse : env.planningResult = .ok none) :
    generateRepairGuide env d f =
      ⟨[.progress "Analyzing item and planning repair...", .planningCall d f.type],
       .error (.malformedPlanError "The AI returned an unexpected format. Please try again.")⟩ ∧
    countImageCalls (generateRepairGuide env d f).trace = 0 := by
  constructor <;> simp [generateRepairGuide, hkey, hparse, countImageCalls]

/-- C2 witness: the conclusion at the unparseable-response environment. -/
theorem generateRepairGuide_malformed_plan_witness :
    generateRepairGuide envBadJson "The chair leg is cracked." fileA =
      ⟨[.progress "Analyzing item and planning repair...",
        .planningCall "The chair leg is cracked." fileA.type],
       .error (.malformedPlanError "The AI returned an unexpected format. Please try again.")⟩ ∧
    countImageCalls (generateRepairGuide envBadJson "The chair leg is cracked." fileA).trace = 0 :=
  generateRepairGuide_malformed_plan envBadJson "The chair leg is cracked." fileA rfl rfl

/-- C2 counterexample: a payload that parses as JSON but violates the expected
shape (an object with no `steps` field) makes the run fail with a runtime
TypeError — a different error than the malformed-plan one — though still with
zero image calls. -/
theorem generateRepairGuide_malformed_plan_cex :
    (generateRepairGuide envShapeBad "The chair leg is cracked." fileA).outcome =
      .error (.typeError "Cannot read properties of undefined (reading entries)") ∧
    OrchError.typeError "Cannot read properties of undefined (reading entries)" ≠
      OrchError.malformedPlanError "The AI returned an unexpected format. Please try again." ∧
    countImageCalls (generateRepairGuide envShapeBad "The chair leg is cracked." fileA).trace = 0 :=
  ⟨rfl, by decide, rfl⟩

/-- C3: when the image service returns zero images for the step at 0-based
index `k` (all earlier calls having returned an image), the run fails with the
image-generation error naming that step's `stepNumber`, the loop aborts right
there (exactly `k + 1` image calls are made), and the outcome is that error,
so no partial guide is ever returned. -/
theorem generateRepairGuide_imageGen_abort (env : GenEnv) (d : String) (f : JsFile)
    (p : GeminiJsonPlan) (k : Nat) (q : PlanStep)
    (hkey : envKeyMissing env.apiKey = false)
    (hplan : env.planningResult = .ok (some (encodePlan p)))
    (hq : p.steps[k]? = some q)
    (hempty : imageCallEmpty (env.imageResults k) = true)
    (hprev : ∀ j, j < k → imageCallOk (env.imageResults j) = true) :
    (generateRepairGuide env d f).outcome =
      .error (.imageGenerationError
        s!"Failed to generate an image for step {q.stepNumber}.") ∧
    countImageCalls (generateRepairGuide env d f).trace = k + 1 := by
  obtain ⟨he, hc⟩ :=
    stepLoop_fail env ((p.steps.map encodeStep).length) p.steps k 0 q hq
      (by simpa using hempty) (fun j hj => by simpa using hprev j hj)
  rw [generateRepairGuide_planned env d f (encodePlan p) (p.steps.map encodeStep)
    hkey hplan (jsGet_encodePlan_steps p)]
  constructor
  · simp only [he, jsToString_num]
    rfl
  · simp only [countImageCalls, hc]

/-- C3 witness: in `envEmptyAt1` the second image call yields zero images; the
run fails naming step 2 after exactly two image calls. -/
theorem generateRepairGuide_imageGen_abort_witness :
    (generateRepairGuide envEmptyAt1 "The chair leg is cracked." fileA).outcome =
      .error (.imageGenerationError "Failed to generate an image for step 2.") ∧
    countImageCalls (generateRepairGuide envEmptyAt1 "The chair leg is cracked." fileA).trace = 2 :=
  generateRepairGuide_imageGen_abort envEmptyAt1 "The chair leg is cracked." fileA
    planA 1 ⟨2, "Apply glue to the crack.", "photo of glue applied"⟩ rfl rfl rfl rfl
    (fun j hj => by interval_cases j; rfl)

/-- C4 (amended): every `TutorialStep` of a successful run preserves the
`stepNumber` and `description` of the corresponding plan step verbatim, one
step per plan step; consequently the guide's numbering is 1-based consecutive
exactly when the parsed plan's is.  Amendment forced by the counterexample:
the source never renumbers or validates `stepNumber`, so "strictly increasing
starting at 1" is inherited from the plan, not guaranteed by the code. -/
theorem generateRepairGuide_preserves_steps (env : GenEnv) (d : String) (f : JsFile)
    (p : GeminiJsonPlan) (g : RepairGuide) (i : Nat) (q : PlanStep) (t : TutorialStep)
    (hplan : env.planningResult = .ok (some (encodePlan p)))
    (hok : (generateRepairGuide env d f).outcome = .ok g)
    (hq : p.steps[i]? = some q)
    (ht : g.steps[i]? = some t) :
    g.steps.length = p.steps.length ∧
    t.stepNumber = .num q.stepNumber ∧
    t.description = .str q.description ∧
    (q.stepNumber = (i : Int) + 1 → t.stepNumber = .num ((i : Int) + 1)) := by
  cases hkey : envKeyMissing env.apiKey with
  | true => simp [generateRepairGuide, hkey] at hok
  | false =>
    rw [generateRepairGuide_planned env d f (encodePlan p) (p.steps.map encodeStep)
      hkey hplan (jsGet_encodePlan_steps p)] at hok
    simp only at hok
    cases hloop : (stepLoop env (p.steps.map encodeStep).length (p.steps.map encodeStep) 0).2 with
    | error e => rw [hloop] at hok; simp at hok
    | ok ts =>
      rw [hloop] at hok
      cases hsw : jsGet (encodePlan p) "safetyWarning" with
      | error e => rw [hsw] at hok; simp at hok
      | ok sw =>
        rw [hsw] at hok
        simp only [Except.ok.injEq] at hok
        subst hok
        obtain ⟨url, hurl⟩ := stepLoop_ok_encoded env (p.steps.map encodeStep).length
          p.steps 0 ts hloop i q hq
        have hts : ts[i]? = some t := ht
        rw [hurl] at hts
        simp only [Option.some.injEq] at hts
        subst hts
        have hlen : ({ safetyWarning := sw, steps := ts } : RepairGuide).steps.length
            = p.steps.length := by
          have := stepLoop_ok_length env (p.steps.map encodeStep).length
            (p.steps.map encodeStep) 0 ts hloop
          simpa using this
        exact ⟨hlen, rfl, rfl, fun hqn => by simp [hqn]⟩

/-- C4 witness: in `envA`, at index 1, the second tutorial step carries the
second plan step's data, numbered 2. -/
theorem generateRepairGuide_preserves_steps_witness :
    (RepairGuide.mk (.str "Unplug the device before starting.")
      [⟨.num 1, .str "Gather a screwdriver and wood glue.", "data:image/jpeg;base64,IMG"⟩,
       ⟨.num 2, .str "Apply glue to the crack.", "data:image/jpeg;base64,IMG"⟩,
       ⟨.num 3, .str "Clamp the leg and let it dry.", "data:image/jpeg;base64,IMG"⟩]).steps.length
        = planA.steps.length ∧
    (TutorialStep.mk (.num 2) (.str "Apply glue to the crack.")
      "data:image/jpeg;base64,IMG").stepNumber = .num (2 : Int) ∧
    (TutorialStep.mk (.num 2) (.str "Apply glue to the crack.")
      "data:image/jpeg;base64,IMG").description = .str "Apply glue to the crack." ∧
    ((2 : Int) = ((1 : Nat) : Int) + 1 →
      (TutorialStep.mk (.num 2) (.str "Apply glue to the crack.")
        "data:image/jpeg;base64,IMG").stepNumber = .num (((1 : Nat) : Int) + 1)) :=
  generateRepairGuide_preserves_steps envA "The chair leg is cracked." fileA planA
    _ 1 ⟨2, "Apply glue to the crack.", "photo of glue applied"⟩
    ⟨.num 2, .str "Apply glue to the crack.", "data:image/jpeg;base64,IMG"⟩
    rfl rfl rfl rfl

/-- C4 counterexample: a successful run over a plan whose single step is
numbered 7 returns a guide whose first step is numbered 7, not 1: the code
copies plan numbering instead of producing a 1-based consecutive sequence. -/
theorem generateRepairGuide_preserves_steps_cex :
    (generateRepairGuide envSeven "The chair leg is cracked." fileA).outcome =
      .ok ⟨.null, [⟨.num 7, .str "Do the repair.", "data:image/jpeg;base64,IMG"⟩]⟩ ∧
    JsValue.num 7 ≠ JsValue.num 1 :=
  ⟨rfl, by simp⟩

/-- C5: over a parsed plan with N steps whose image calls all succeed, the
orchestrator invokes the progress callback exactly once with the analysis
message before the planning call, then once per step, in order, with the
message naming the 1-based position i and the total N, each immediately
before that step's image call (positions 2i+2 and 2i+3 of the trace); the
whole event trace is fully determined.  (The source spells the trailing
ellipsis of both messages as three ASCII dots.) -/
theorem generateRepairGuide_progress_messages (env : GenEnv) (d : String) (f : JsFile)
    (p : GeminiJsonPlan) (i : Nat) (q : PlanStep)
    (hkey : envKeyMissing env.apiKey = false)
    (hplan : env.planningResult = .ok (some (encodePlan p)))
    (himg : ∀ j, j < p.steps.length → imageCallOk (env.imageResults j) = true)
    (hq : p.steps[i]? = some q) :
    (generateRepairGuide env d f).trace =
      Event.progress "Analyzing item and planning repair..." ::
      Event.planningCall d f.type ::
      imagePhaseTrace p.steps.length p.steps 0 ∧
    (generateRepairGuide env d f).trace[2 * i + 2]? =
      some (.progress s!"Generating image for step {i + 1} of {p.steps.length}...") ∧
    (generateRepairGuide env d f).trace[2 * i + 3]? =
      some (.imageCall (.str q.imagePrompt)) := by
  have hspec := stepLoop_ok_spec env ((p.steps.map encodeStep).length) p.steps 0
    (fun j hj => by simpa using himg j (by simpa using hj))
  have htr :
      (generateRepairGuide env d f).trace =
        Event.progress "Analyzing item and planning repair..." ::
        Event.planningCall d f.type ::
        imagePhaseTrace p.steps.length p.steps 0 := by
    rw [generateRepairGuide_planned env d f (encodePlan p) (p.steps.map encodeStep)
      hkey hplan (jsGet_encodePlan_steps p)]
    simp only [hspec]
    simp only [List.length_map]
  obtain ⟨hp1, hp2⟩ := imagePhaseTrace_getElem p.steps.length p.steps 0 i q hq
  refine ⟨htr, ?_, ?_⟩
  · rw [htr]
    have h2 : 2 * i + 2 = 2 * i + 1 + 1 := rfl
    rw [h2, List.getElem?_cons_succ, List.getElem?_cons_succ]
    simpa using hp1
  · rw [htr]
    have h3 : 2 * i + 3 = 2 * i + 1 + 1 + 1 := rfl
    rw [h3, List.getElem?_cons_succ, List.getElem?_cons_succ]
    simpa using hp2

/-- C5 witness: the full trace and the indexed messages at step index 1 in
`envA` with the three-step plan. -/
theorem generateRepairGuide_progress_messages_witness :
    (generateRepairGuide envA "The chair leg is cracked." fileA).trace =
      Event.progress "Analyzing item and planning repair..." ::
      Event.planningCall "The chair leg is cracked." fileA.type ::
      imagePhaseTrace planA.steps.length planA.steps 0 ∧
    (generateRepairGuide envA "The chair leg is cracked." fileA).trace[2 * 1 + 2]? =
      some (.progress "Generating image for step 2 of 3...") ∧
    (generateRepairGuide envA "The chair leg is cracked." fileA).trace[2 * 1 + 3]? =
      some (.imageCall (.str "photo of glue applied")) :=
  generateRepairGuide_progress_messages envA "The chair leg is cracked." fileA planA
    1 ⟨2, "Apply glue to the crack.", "photo of glue applied"⟩
    rfl rfl (fun _ _ => rfl) rfl

/-- C9: with no API key configured, the run fails at once with the
configuration error, with an empty event trace — no progress-callback
invocation and no network call of either kind precedes the failure. -/
theorem generateRepairGuide_config_error (env : GenEnv) (d : String) (f : JsFile)
    (hkey : env.apiKey = none) :
    generateRepairGuide env d f =
      ⟨[], .error (.configError "API_KEY environment variable is not set.")⟩ := by
  simp [generateRepairGuide, envKeyMissing, hkey]

/-- C9 witness: the conclusion at the keyless environment. -/
theorem generateRepairGuide_config_error_witness :
    generateRepairGuide envNoKey "The chair leg is cracked." fileA =
      ⟨[], .error (.configError "API_KEY environment variable is not set.")⟩ :=
  generateRepairGuide_config_error envNoKey "The chair leg is cracked." fileA rfl

/-!
Shell fixtures and claim theorems.
-/

/-- A guide left over from an earlier successful run. -/
def priorGuide : RepairGuide :=
  ⟨.null, [⟨.num 1, .str "Old step.", "data:image/jpeg;base64,OLD"⟩]⟩

/-- A filled form with no run in flight and no stored guide. -/
def stateForm : AppState :=
  ⟨"The chair leg is cracked.", some fileA, some "blob:preview-1", none, false, "", none⟩

/-- A filled form that still holds a guide from an earlier successful run. -/
def stateWithGuide : AppState :=
  ⟨"The chair leg is cracked.", some fileA, some "blob:preview-1", some priorGuide,
   false, "", none⟩

/-- An oversized file: one byte above the 4 MiB bound. -/
def bigFile : JsFile := ⟨"big.png", "image/png", 4 * 1024 * 1024 + 1, "AAAA"⟩

/-- A file of exactly 4 MiB. -/
def maxFile : JsFile := ⟨"ok.png", "image/png", 4 * 1024 * 1024, "BBBB"⟩

/-- A concrete stand-in for `URL.createObjectURL`. -/
def blobUrl : JsFile → String := fun f => "blob:" ++ f.name

/-- C6: whatever error the orchestrator fails with, the Shell handler catches
it at its single call site, stores its display string in the error slot,
clears the loading flag and the loading message, and ends showing the Form
view — it is never left in Loading once the orchestrator call completes. -/
theorem handleGenerateGuide_failure_to_form (env : GenEnv) (s : AppState)
    (f : JsFile) (e : OrchError)
    (hf : s.imageFile = some f)
    (hd : ¬ s.problemDescription = "")
    (he : (generateRepairGuide env s.problemDescription f).outcome = .error e) :
    (handleGenerateGuide env s).isLoading = false ∧
    (handleGenerateGuide env s).loadingMessage = "" ∧
    (handleGenerateGuide env s).error = some (errorMessage e) ∧
    showsForm (handleGenerateGuide env s) = true ∧
    showsLoading (handleGenerateGuide env s) = false := by
  simp [handleGenerateGuide, hf, hd, he, generatePrep, showsForm, showsLoading]

/-- C6 witness: the conclusion at a filled form and a failing environment. -/
theorem handleGenerateGuide_failure_to_form_witness :
    (handleGenerateGuide envBadJson stateForm).isLoading = false ∧
    (handleGenerateGuide envBadJson stateForm).loadingMessage = "" ∧
    (handleGenerateGuide envBadJson stateForm).error =
      some (errorMessage (.malformedPlanError
        "The AI returned an unexpected format. Please try again.")) ∧
    showsForm (handleGenerateGuide envBadJson stateForm) = true ∧
    showsLoading (handleGenerateGuide envBadJson stateForm) = false :=
  handleGenerateGuide_failure_to_form envBadJson stateForm fileA
    (.malformedPlanError "The AI returned an unexpected format. Please try again.")
    rfl (by decide) rfl

/-- C7: applied while the Result view is shown (a guide is stored and no run
is in flight), the reset action clears the description, the image, the
preview, the guide and the error back to their initial empty values, and the
Shell shows the Form view again. -/
theorem handleReset_clears_state (s : AppState)
    ( _hres : showsResult s = true)
    (hnl : s.isLoading = false) :
    (handleReset s).problemDescription = "" ∧
    (handleReset s).imageFile = none ∧
    (handleReset s).previewUrl = none ∧
    (handleReset s).guide = none ∧
    (handleReset s).error = none ∧
    showsForm (handleReset s) = true := by
  simp [handleReset, showsForm, hnl]

/-- C7 witness: the conclusion at a state holding a finished guide. -/
theorem handleReset_clears_state_witness :
    (handleReset stateWithGuide).problemDescription = "" ∧
    (handleReset stateWithGuide).imageFile = none ∧
    (handleReset stateWithGuide).previewUrl = none ∧
    (handleReset stateWithGuide).guide = none ∧
    (handleReset stateWithGuide).error = none ∧
    showsForm (handleReset stateWithGuide) = true :=
  handleReset_clears_state stateWithGuide rfl rfl

/-- C8: file selection accepts a file of exactly 4 MiB (the state takes the
new image, a fresh preview and a cleared error) and rejects a file of exactly
4 MiB + 1 byte by only setting the error message — the record-update equality
shows every other slot, including the previously selected image and preview,
is untouched. -/
theorem handleFileChange_size_boundary (createObjectURL : JsFile → String)
    (s : AppState) (f g : JsFile)
    (hf : f.size = 4 * 1024 * 1024 + 1)
    (hg : g.size = 4 * 1024 * 1024) :
    handleFileChange createObjectURL s (some f) =
      { s with error := some "Image file is too large. Please select a file under 4MB." } ∧
    handleFileChange createObjectURL s (some g) =
      { s with imageFile := some g,
               previewUrl := some (createObjectURL g),
               error := none } := by
  constructor
  · simp [handleFileChange, hf]
  · simp [handleFileChange, hg]

/-- C8 witness: the conclusion at the two boundary files over a filled form. -/
theorem handleFileChange_size_boundary_witness :
    handleFileChange blobUrl stateForm (some bigFile) =
      { stateForm with
          error := some "Image file is too large. Please select a file under 4MB." } ∧
    handleFileChange blobUrl stateForm (some maxFile) =
      { stateForm with imageFile := some maxFile,
                       previewUrl := some (blobUrl maxFile),
                       error := none } :=
  handleFileChange_size_boundary blobUrl stateForm bigFile maxFile rfl rfl

/-- C10: the generate action clears any previously stored guide before the
pipeline starts (`generatePrep`), and when the orchestrator then fails the
guide slot is still empty at the end: the user sees the Form with the error,
never the stale Result of an earlier successful run. -/
theorem handleGenerateGuide_clears_stale_guide (env : GenEnv) (s : AppState)
    (f : JsFile) (e : OrchError)
    (hf : s.imageFile = some f)
    (hd : ¬ s.problemDescription = "")
    (he : (generateRepairGuide env s.problemDescription f).outcome = .error e) :
    (generatePrep s).guide = none ∧
    (handleGenerateGuide env s).guide = none ∧
    (handleGenerateGuide env s).error = some (errorMessage e) ∧
    showsResult (handleGenerateGuide env s) = false ∧
    showsForm (handleGenerateGuide env s) = true := by
  refine ⟨rfl, ?_⟩
  simp [handleGenerateGuide, hf, hd, he, generatePrep, showsForm, showsResult]

/-- C10 witness: the conclusion at a state still holding an earlier guide and
a failing environment. -/
theorem handleGenerateGuide_clears_stale_guide_witness :
    (generatePrep stateWithGuide).guide = none ∧
    (handleGenerateGuide envBadJson stateWithGuide).guide = none ∧
    (handleGenerateGuide envBadJson stateWithGuide).error =
      some (errorMessage (.malformedPlanError
        "The AI returned an unexpected format. Please try again.")) ∧
    showsResult (handleGenerateGuide envBadJson stateWithGuide) = false ∧
    showsForm (handleGenerateGuide envBadJson stateWithGuide) = true :=
  handleGenerateGuide_clears_stale_guide envBadJson stateWithGuide fileA
    (.malformedPlanError "The AI returned an unexpected format. Please try again.")
    rfl (by decide) rfl
